import Mathlib

/-!
Verification of the responsive / platform-detection service.

The service derives UI classification values (breakpoint, device type,
orientation, browser, operating system, touch capability, color-scheme
preference) from browser media queries and the user-agent identifier
string, and mirrors them onto the document root element as CSS classes.

The embedding below follows the source file: pure detection functions
become Lean functions over an explicit environment record, and the
DOM side effects together with the reactive subscriptions become a
step function on an explicit system state.
-/

namespace ResponsiveService

/-- A character is lowered exactly as the JavaScript toLowerCase call
does on the ASCII range (the only range the matched patterns use). -/
def lowChar (c : Char) : Char :=
  if 'A' ≤ c && c ≤ 'Z' then Char.ofNat (c.toNat + 32) else c

/-- Lowercase a string character by character. -/
def lowerStr (s : String) : String :=
  String.mk (s.data.map lowChar)

/-- Does the pattern occur at the head of the text? -/
def leadsWith : List Char → List Char → Bool
  | [], _ => true
  | _ :: _, [] => false
  | a :: pa, b :: sb => a == b && leadsWith pa sb

/-- Does the pattern occur anywhere in the text? -/
def hasSubAux (pat : List Char) : List Char → Bool
  | [] => List.isEmpty pat
  | c :: rest => leadsWith pat (c :: rest) || hasSubAux pat rest

/-- Substring test, modelling the JavaScript String.includes call:
hasSub s pat is true when pat occurs contiguously inside s. -/
def hasSub (s pat : String) : Bool :=
  hasSubAux pat.data s.data

/-- The media queries the service registers: width thresholds in CSS
pixels, the two orientation queries, nothing else. -/
inductive MediaQuery
  | minWidth (px : Nat)
  | maxWidth (px : Nat)
  | minMaxWidth (lo hi : Nat)
  | orientationPortrait
  | orientationLandscape
deriving DecidableEq

/-- Ambient state of an interactive (browser) environment: viewport
width in CSS pixels, orientation, touch capability flags, the
user-agent identifier string, and the system color-scheme preference. -/
structure Env where
  width : Nat
  portrait : Bool
  touchStart : Bool
  maxTouchPoints : Nat
  userAgent : String
  prefersDark : Bool
deriving DecidableEq

/-- Evaluation of a media query against the browser environment.
A min-width query matches when the threshold is at most the viewport
width; orientation queries are complementary. -/
def matchesQuery (q : MediaQuery) (env : Env) : Bool :=
  match q with
  | .minWidth px => decide (px ≤ env.width)
  | .maxWidth px => decide (env.width ≤ px)
  | .minMaxWidth lo hi => decide (lo ≤ env.width) && decide (env.width ≤ hi)
  | .orientationPortrait => env.portrait
  | .orientationLandscape => !env.portrait

/-- The five named Tailwind v4 breakpoint queries of the source
(TAILWIND_BREAKPOINTS): sm 640, md 768, lg 1024, xl 1280, 2xl 1536. -/
structure BreakpointQueries where
  sm : MediaQuery
  md : MediaQuery
  lg : MediaQuery
  xl : MediaQuery
  xl2 : MediaQuery

def TAILWIND_BREAKPOINTS : BreakpointQueries :=
  { sm := .minWidth 640
    md := .minWidth 768
    lg := .minWidth 1024
    xl := .minWidth 1280
    xl2 := .minWidth 1536 }

/-- Query behind the isMobile observable: max-width 767px. -/
def mobileQuery : MediaQuery := .maxWidth 767

/-- Query behind the isTablet observable: min-width 768px and
max-width 1023px. -/
def tabletQuery : MediaQuery := .minMaxWidth 768 1023

/-- Query behind the isDesktop observable: min-width 1024px. -/
def desktopQuery : MediaQuery := .minWidth 1024

/-- Modelled from the spec for the non-interactive case: the media
matching facility consumed by the service (an external collaborator,
not part of this repository) reports a real match only in a browser;
outside a browser all environment queries are no-ops that match
nothing, per the stated safe-default behaviour. -/
def checkMatch (isBrowser : Bool) (env : Env) (q : MediaQuery) : Bool :=
  if isBrowser then matchesQuery q env else false

/-- The six Tailwind breakpoint names. -/
inductive TailwindBreakpoint
  | xs | sm | md | lg | xl | xl2
deriving DecidableEq, Fintype

/-- Textual form of a breakpoint name, as used in class names. -/
def bpText : TailwindBreakpoint → String
  | .xs => "xs"
  | .sm => "sm"
  | .md => "md"
  | .lg => "lg"
  | .xl => "xl"
  | .xl2 => "2xl"

/-- The breakpoint cascade of the source: test the five registered
queries from the largest threshold down and return the first match,
with xs when none matches. -/
def currentBreakpoint (isBrowser : Bool) (env : Env) : TailwindBreakpoint :=
  if checkMatch isBrowser env TAILWIND_BREAKPOINTS.xl2 then .xl2
  else if checkMatch isBrowser env TAILWIND_BREAKPOINTS.xl then .xl
  else if checkMatch isBrowser env TAILWIND_BREAKPOINTS.lg then .lg
  else if checkMatch isBrowser env TAILWIND_BREAKPOINTS.md then .md
  else if checkMatch isBrowser env TAILWIND_BREAKPOINTS.sm then .sm
  else .xs

/-- The device platform values. -/
inductive DevicePlatform
  | mobile | tablet | desktop
deriving DecidableEq, Fintype

def platformText : DevicePlatform → String
  | .mobile => "mobile"
  | .tablet => "tablet"
  | .desktop => "desktop"

/-- The browser values. -/
inductive Browser
  | chrome | firefox | safari | edge | other
deriving DecidableEq, Fintype

def browserText : Browser → String
  | .chrome => "chrome"
  | .firefox => "firefox"
  | .safari => "safari"
  | .edge => "edge"
  | .other => "other"

/-- The operating-system values. -/
inductive OpSystem
  | windows | macos | linux | ios | android | other
deriving DecidableEq, Fintype

def osText : OpSystem → String
  | .windows => "windows"
  | .macos => "macos"
  | .linux => "linux"
  | .ios => "ios"
  | .android => "android"
  | .other => "other"

/-- detectTouch of the source: false outside a browser, otherwise an
ontouchstart capability or a positive maximum touch point count. -/
def detectTouch (isBrowser : Bool) (env : Env) : Bool :=
  if !isBrowser then false
  else env.touchStart || decide (0 < env.maxTouchPoints)

/-- detectPlatform of the source: desktop when the lg query matches,
else tablet when the md query matches, else mobile. -/
def detectPlatform (isBrowser : Bool) (env : Env) : DevicePlatform :=
  if checkMatch isBrowser env TAILWIND_BREAKPOINTS.lg then .desktop
  else if checkMatch isBrowser env TAILWIND_BREAKPOINTS.md then .tablet
  else .mobile

/-- detectBrowser of the source: other outside a browser, otherwise a
case-insensitive substring cascade over the user-agent string. -/
def detectBrowser (isBrowser : Bool) (userAgent : String) : Browser :=
  if !isBrowser then .other
  else
    let ua := lowerStr userAgent
    if hasSub ua "edg/" then .edge
    else if hasSub ua "chrome" then .chrome
    else if hasSub ua "firefox" then .firefox
    else if hasSub ua "safari" && !hasSub ua "chrome" then .safari
    else .other

/-- detectOS of the source: other outside a browser, otherwise a
case-insensitive substring cascade over the user-agent string. -/
def detectOS (isBrowser : Bool) (userAgent : String) : OpSystem :=
  if !isBrowser then .other
  else
    let ua := lowerStr userAgent
    if hasSub ua "win" then .windows
    else if hasSub ua "mac" then .macos
    else if hasSub ua "linux" then .linux
    else if hasSub ua "iphone" || hasSub ua "ipad" then .ios
    else if hasSub ua "android" then .android
    else .other

/-- getPrefersDark of the source: the match state of the
prefers-color-scheme dark media query. -/
def getPrefersDark (env : Env) : Bool :=
  env.prefersDark

/-- The ResponsiveState record of the source. -/
structure ResponsiveState where
  breakpoint : TailwindBreakpoint
  isMobile : Bool
  isTablet : Bool
  isDesktop : Bool
  isPortrait : Bool
  isLandscape : Bool
  isTouchEnabled : Bool
  platform : DevicePlatform
  browser : Browser
  os : OpSystem
  prefersDark : Bool
deriving DecidableEq

/-- The snapshot computation of the state observable: the map closure
receives the freshly emitted breakpoint and reads the remaining
classification values from the current environment. -/
def computeSnapshot (isBrowser : Bool) (env : Env) : ResponsiveState :=
  let breakpoint := currentBreakpoint isBrowser env
  let isMobile := !checkMatch isBrowser env TAILWIND_BREAKPOINTS.md
  let isTablet := checkMatch isBrowser env TAILWIND_BREAKPOINTS.md &&
    !checkMatch isBrowser env TAILWIND_BREAKPOINTS.lg
  let isDesktop := checkMatch isBrowser env TAILWIND_BREAKPOINTS.lg
  { breakpoint := breakpoint
    isMobile := isMobile
    isTablet := isTablet
    isDesktop := isDesktop
    isPortrait := isBrowser && checkMatch isBrowser env .orientationPortrait
    isLandscape := isBrowser && checkMatch isBrowser env .orientationLandscape
    isTouchEnabled := isBrowser && detectTouch isBrowser env
    platform := if isDesktop then .desktop else if isTablet then .tablet else .mobile
    browser := detectBrowser isBrowser env.userAgent
    os := detectOS isBrowser env.userAgent
    prefersDark := isBrowser && getPrefersDark env }

/-- The platform convenience accessor: the platform field of the
latest snapshot, with desktop as the fallback for an absent snapshot. -/
def platformAccessor (snap : Option ResponsiveState) : DevicePlatform :=
  match snap with
  | some st => st.platform
  | none => .desktop

/-- The browser convenience accessor, with other as the fallback. -/
def browserAccessor (snap : Option ResponsiveState) : Browser :=
  match snap with
  | some st => st.browser
  | none => .other

/-- The os convenience accessor, with other as the fallback. -/
def osAccessor (snap : Option ResponsiveState) : OpSystem :=
  match snap with
  | some st => st.os
  | none => .other

/-- The state signal always holds a snapshot: the signal conversion
requires a synchronous first emission and the observation facility
emits the current match state on subscription, so the fallback arms of
the convenience accessors are unreachable. -/
def stateSignal (isBrowser : Bool) (env : Env) : Option ResponsiveState :=
  some (computeSnapshot isBrowser env)

/-! DOM class list model.  The class list of the root element is a
duplicate-free token list; add, remove and toggle follow the
DOMTokenList semantics used through classList in the source. -/

/-- classList.add: append the token unless already present. -/
def classAdd (l : List String) (c : String) : List String :=
  if c ∈ l then l else l ++ [c]

/-- classList.remove for one token: drop every occurrence. -/
def classRemove (l : List String) (c : String) : List String :=
  l.filter (fun x => x != c)

/-- classList.remove for several tokens. -/
def classRemoveAll (l : List String) (cs : List String) : List String :=
  cs.foldl classRemove l

/-- classList.toggle with a force argument: add when the flag is true,
remove when it is false. -/
def classToggle (l : List String) (c : String) (force : Bool) : List String :=
  if force then classAdd l c else classRemove l c

/-- The six breakpoint class names removed together before the current
one is added. -/
def bpClassNames : List String :=
  ["bp-xs", "bp-sm", "bp-md", "bp-lg", "bp-xl", "bp-2xl"]

/-- The class names written by the reactive subscriptions and the
color-scheme listener; every other class on the root element is left
alone after construction. -/
def reactiveClassNames : List String :=
  bpClassNames ++
    ["mobile", "tablet", "desktop",
     "orientation-portrait", "orientation-landscape",
     "prefers-dark", "prefers-light"]

/-- Runtime state of the constructed service in a browser: the ambient
environment, the root element class list, the last value emitted by
each distinct-until-changed stream that has a DOM subscription, and
the latest snapshot held by the state signal. -/
structure SysState where
  env : Env
  html : List String
  lastBp : TailwindBreakpoint
  lastIsMobile : Bool
  lastIsTablet : Bool
  lastIsDesktop : Bool
  lastIsPortrait : Bool
  snapshot : ResponsiveState
deriving DecidableEq

/-- Construction in a browser: the snapshot signal takes its first
value, then applyClassesToHtml runs.  Each subscription fires once
with the current value (breakpoint classes, device toggles, the
orientation pair), then the one-time platform, browser, os and touch
classes are written, and finally the color-scheme listener is invoked
once with the current preference. -/
def initHtml (html0 : List String) (env : Env) : List String :=
  let bp := currentBreakpoint true env
  let m := matchesQuery mobileQuery env
  let t := matchesQuery tabletQuery env
  let d := matchesQuery desktopQuery env
  let p := matchesQuery .orientationPortrait env
  let touch := detectTouch true env
  let h1 := classAdd (classRemoveAll html0 bpClassNames) ("bp-" ++ bpText bp)
  let h2 := classToggle h1 "mobile" m
  let h3 := classToggle h2 "tablet" t
  let h4 := classToggle h3 "desktop" d
  let h5 := classToggle (classToggle h4 "orientation-portrait" p)
    "orientation-landscape" (!p)
  let h6 := classAdd h5 ("platform-" ++ platformText (detectPlatform true env))
  let h7 := classAdd h6 ("browser-" ++ browserText (detectBrowser true env.userAgent))
  let h8 := classAdd h7 ("os-" ++ osText (detectOS true env.userAgent))
  let h9 := classToggle (classToggle h8 "touch-enabled" touch)
    "touch-disabled" (!touch)
  classToggle (classToggle h9 "prefers-dark" env.prefersDark)
    "prefers-light" (!env.prefersDark)

def mkInit (html0 : List String) (env : Env) : SysState :=
  { env := env
    html := initHtml html0 env
    lastBp := currentBreakpoint true env
    lastIsMobile := matchesQuery mobileQuery env
    lastIsTablet := matchesQuery tabletQuery env
    lastIsDesktop := matchesQuery desktopQuery env
    lastIsPortrait := matchesQuery .orientationPortrait env
    snapshot := computeSnapshot true env }

/-- Environment change notifications delivered to the constructed
service: a viewport resize, an orientation change, and a system
color-scheme change. -/
inductive Event
  | resize (w : Nat)
  | orientationChange (p : Bool)
  | colorSchemeChange (d : Bool)
deriving DecidableEq

/-- One change notification.  A resize re-evaluates the width streams:
the breakpoint subscription and the snapshot re-emit only when the
cascade result changed (distinctUntilChanged), and each device toggle
fires only when its match value changed.  An orientation change drives
the orientation pair; a color-scheme change runs the registered
listener, which toggles only the two preference classes and touches no
stream, so the snapshot is left as it was. -/
def step (s : SysState) : Event → SysState
  | .resize w =>
    let env2 := { s.env with width := w }
    let bp2 := currentBreakpoint true env2
    let h1 := if bp2 = s.lastBp then s.html
      else classAdd (classRemoveAll s.html bpClassNames) ("bp-" ++ bpText bp2)
    let snap2 := if bp2 = s.lastBp then s.snapshot else computeSnapshot true env2
    let m2 := matchesQuery mobileQuery env2
    let h2 := if m2 = s.lastIsMobile then h1 else classToggle h1 "mobile" m2
    let t2 := matchesQuery tabletQuery env2
    let h3 := if t2 = s.lastIsTablet then h2 else classToggle h2 "tablet" t2
    let d2 := matchesQuery desktopQuery env2
    let h4 := if d2 = s.lastIsDesktop then h3 else classToggle h3 "desktop" d2
    { s with
      env := env2
      html := h4
      lastBp := bp2
      lastIsMobile := m2
      lastIsTablet := t2
      lastIsDesktop := d2
      snapshot := snap2 }
  | .orientationChange p =>
    let env2 := { s.env with portrait := p }
    let h := if p = s.lastIsPortrait then s.html
      else classToggle (classToggle s.html "orientation-portrait" p)
        "orientation-landscape" (!p)
    { s with env := env2, html := h, lastIsPortrait := p }
  | .colorSchemeChange d =>
    let env2 := { s.env with prefersDark := d }
    let h := classToggle (classToggle s.html "prefers-dark" d)
      "prefers-light" (!d)
    { s with env := env2, html := h }

/-- The reactive classes always reflect the current environment, and
the memory of each distinct-until-changed stream holds the value its
source currently produces. -/
def Inv (s : SysState) : Prop :=
  s.lastBp = currentBreakpoint true s.env ∧
  s.lastIsMobile = matchesQuery mobileQuery s.env ∧
  s.lastIsTablet = matchesQuery tabletQuery s.env ∧
  s.lastIsDesktop = matchesQuery desktopQuery s.env ∧
  s.lastIsPortrait = s.env.portrait ∧
  (∀ bp : TailwindBreakpoint, ("bp-" ++ bpText bp) ∈ s.html ↔ bp = s.lastBp) ∧
  ("mobile" ∈ s.html ↔ matchesQuery mobileQuery s.env = true) ∧
  ("tablet" ∈ s.html ↔ matchesQuery tabletQuery s.env = true) ∧
  ("desktop" ∈ s.html ↔ matchesQuery desktopQuery s.env = true) ∧
  ("orientation-portrait" ∈ s.html ↔ s.env.portrait = true) ∧
  ("orientation-landscape" ∈ s.html ↔ s.env.portrait = false) ∧
  ("prefers-dark" ∈ s.html ↔ s.env.prefersDark = true) ∧
  ("prefers-light" ∈ s.html ↔ s.env.prefersDark = false)

/-- A concrete browser environment at a given viewport width, used by
witness and counterexample statements. -/
def envAt (w : Nat) : Env :=
  { width := w
    portrait := true
    touchStart := false
    maxTouchPoints := 0
    userAgent := ""
    prefersDark := false }

/-! Membership toolbox for the class-list operations. -/

theorem mem_classAdd_self (l : List String) (c : String) : c ∈ classAdd l c := by
  unfold classAdd
  split
  · assumption
  · simp

theorem mem_classAdd_of_ne (l : List String) (c d : String) (h : d ≠ c) :
    d ∈ classAdd l c ↔ d ∈ l := by
  unfold classAdd
  split
  · exact Iff.rfl
  · simp [h]

theorem mem_classRemove (l : List String) (c d : String) :
    d ∈ classRemove l c ↔ d ∈ l ∧ d ≠ c := by
  simp [classRemove, List.mem_filter]

theorem mem_classToggle_self (l : List String) (c : String) (b : Bool) :
    c ∈ classToggle l c b ↔ b = true := by
  unfold classToggle
  cases b with
  | false => simp [mem_classRemove]
  | true => simp [mem_classAdd_self]

theorem mem_classToggle_of_ne (l : List String) (c : String) (b : Bool) (d : String)
    (h : d ≠ c) : d ∈ classToggle l c b ↔ d ∈ l := by
  unfold classToggle
  cases b with
  | false => simp [mem_classRemove, h]
  | true => simp [mem_classAdd_of_ne l c d h]

theorem mem_classRemoveAll (l : List String) (cs : List String) (d : String) :
    d ∈ classRemoveAll l cs ↔ d ∈ l ∧ d ∉ cs := by
  induction cs generalizing l with
  | nil => simp [classRemoveAll]
  | cons c cs ih =>
    have hstep : classRemoveAll l (c :: cs) = classRemoveAll (classRemove l c) cs := rfl
    rw [hstep, ih, mem_classRemove]
    simp only [List.mem_cons]
    tauto

/-- Membership through a change-gated toggle, for a class other than
the toggled one. -/
theorem mem_gateToggle_of_ne (P : Prop) [Decidable P] (l : List String) (c : String)
    (b : Bool) (d : String) (h : d ≠ c) :
    (d ∈ if P then l else classToggle l c b) ↔ d ∈ l := by
  split
  · exact Iff.rfl
  · exact mem_classToggle_of_ne l c b d h

/-- Membership through the breakpoint stage of a resize, for a class
that is not a breakpoint class. -/
theorem mem_bpStage (P : Prop) [Decidable P] (l : List String)
    (bp : TailwindBreakpoint) (c : String) (hc : c ∉ bpClassNames) :
    (c ∈ if P then l else classAdd (classRemoveAll l bpClassNames) ("bp-" ++ bpText bp)) ↔
      c ∈ l := by
  have hbp : ("bp-" ++ bpText bp) ∈ bpClassNames := by cases bp <;> decide
  split
  · exact Iff.rfl
  · have hne : c ≠ "bp-" ++ bpText bp := by
      intro he
      exact hc (by rw [he]; exact hbp)
    rw [mem_classAdd_of_ne _ _ _ hne, mem_classRemoveAll]
    exact ⟨fun hx => hx.1, fun hx => ⟨hx, hc⟩⟩

/-! Facts about the concrete class names, settled by evaluation. -/

theorem bpClass_mem : ∀ bp : TailwindBreakpoint, ("bp-" ++ bpText bp) ∈ bpClassNames := by
  decide

theorem bpClass_inj : ∀ a b : TailwindBreakpoint,
    ("bp-" ++ bpText a) = ("bp-" ++ bpText b) ↔ a = b := by
  decide

theorem bpClass_ne_simple : ∀ bp : TailwindBreakpoint,
    ∀ c ∈ (["mobile", "tablet", "desktop", "orientation-portrait",
      "orientation-landscape", "prefers-dark", "prefers-light",
      "touch-enabled", "touch-disabled"] : List String),
    c ≠ "bp-" ++ bpText bp := by
  decide

theorem platformClass_ne : ∀ p : DevicePlatform,
    ∀ c ∈ reactiveClassNames ++ ["touch-enabled", "touch-disabled"],
    c ≠ "platform-" ++ platformText p := by
  decide

theorem browserClass_ne : ∀ b : Browser,
    ∀ c ∈ reactiveClassNames ++ ["touch-enabled", "touch-disabled"],
    c ≠ "browser-" ++ browserText b := by
  decide

theorem osClass_ne : ∀ o : OpSystem,
    ∀ c ∈ reactiveClassNames ++ ["touch-enabled", "touch-disabled"],
    c ≠ "os-" ++ osText o := by
  decide

theorem staticClass_pairwise : ∀ p : DevicePlatform, ∀ b : Browser, ∀ o : OpSystem,
    ("platform-" ++ platformText p) ≠ ("browser-" ++ browserText b) ∧
    ("platform-" ++ platformText p) ≠ ("os-" ++ osText o) ∧
    ("browser-" ++ browserText b) ≠ ("os-" ++ osText o) ∧
    ("platform-" ++ platformText p) ∉ reactiveClassNames ∧
    ("browser-" ++ browserText b) ∉ reactiveClassNames ∧
    ("os-" ++ osText o) ∉ reactiveClassNames ∧
    ("platform-" ++ platformText p) ∉ (["touch-enabled", "touch-disabled"] : List String) ∧
    ("browser-" ++ browserText b) ∉ (["touch-enabled", "touch-disabled"] : List String) ∧
    ("os-" ++ osText o) ∉ (["touch-enabled", "touch-disabled"] : List String) := by
  decide

theorem bpClass_ne_static : ∀ bp : TailwindBreakpoint,
    (∀ p : DevicePlatform, ("bp-" ++ bpText bp) ≠ "platform-" ++ platformText p) ∧
    (∀ b : Browser, ("bp-" ++ bpText bp) ≠ "browser-" ++ browserText b) ∧
    (∀ o : OpSystem, ("bp-" ++ bpText bp) ≠ "os-" ++ osText o) := by
  decide

/-- The construction establishes the reactive-class invariant,
whatever classes the root element carried beforehand. -/
theorem inv_mkInit (html0 : List String) (env : Env) : Inv (mkInit html0 env) := by
  have hOS := osClass_ne (detectOS true env.userAgent)
  have hBR := browserClass_ne (detectBrowser true env.userAgent)
  have hPL := platformClass_ne (detectPlatform true env)
  refine ⟨rfl, rfl, rfl, rfl, rfl, ?_, ?_, ?_, ?_, ?_, ?_, ?_, ?_⟩
  case _ =>
    intro bp
    show ("bp-" ++ bpText bp) ∈ initHtml html0 env ↔ bp = currentBreakpoint true env
    simp only [initHtml]
    rw [mem_classToggle_of_ne _ _ _ _ (Ne.symm (bpClass_ne_simple bp "prefers-light" (by decide))),
      mem_classToggle_of_ne _ _ _ _ (Ne.symm (bpClass_ne_simple bp "prefers-dark" (by decide))),
      mem_classToggle_of_ne _ _ _ _ (Ne.symm (bpClass_ne_simple bp "touch-disabled" (by decide))),
      mem_classToggle_of_ne _ _ _ _ (Ne.symm (bpClass_ne_simple bp "touch-enabled" (by decide))),
      mem_classAdd_of_ne _ _ _ ((bpClass_ne_static bp).2.2 _),
      mem_classAdd_of_ne _ _ _ ((bpClass_ne_static bp).2.1 _),
      mem_classAdd_of_ne _ _ _ ((bpClass_ne_static bp).1 _),
      mem_classToggle_of_ne _ _ _ _ (Ne.symm (bpClass_ne_simple bp "orientation-landscape" (by decide))),
      mem_classToggle_of_ne _ _ _ _ (Ne.symm (bpClass_ne_simple bp "orientation-portrait" (by decide))),
      mem_classToggle_of_ne _ _ _ _ (Ne.symm (bpClass_ne_simple bp "desktop" (by decide))),
      mem_classToggle_of_ne _ _ _ _ (Ne.symm (bpClass_ne_simple bp "tablet" (by decide))),
      mem_classToggle_of_ne _ _ _ _ (Ne.symm (bpClass_ne_simple bp "mobile" (by decide)))]
    by_cases hb : bp = currentBreakpoint true env
    · simp [hb, mem_classAdd_self]
    · have hne : ("bp-" ++ bpText bp) ≠ "bp-" ++ bpText (currentBreakpoint true env) :=
        fun he => hb ((bpClass_inj _ _).1 he)
      rw [mem_classAdd_of_ne _ _ _ hne, mem_classRemoveAll]
      simp [bpClass_mem bp, hb]
  case _ =>
    show ("mobile" ∈ initHtml html0 env) ↔ _
    simp only [initHtml]
    rw [mem_classToggle_of_ne _ _ _ _ (by decide : ("mobile" : String) ≠ "prefers-light"),
      mem_classToggle_of_ne _ _ _ _ (by decide : ("mobile" : String) ≠ "prefers-dark"),
      mem_classToggle_of_ne _ _ _ _ (by decide : ("mobile" : String) ≠ "touch-disabled"),
      mem_classToggle_of_ne _ _ _ _ (by decide : ("mobile" : String) ≠ "touch-enabled"),
      mem_classAdd_of_ne _ _ _ (hOS "mobile" (by decide)),
      mem_classAdd_of_ne _ _ _ (hBR "mobile" (by decide)),
      mem_classAdd_of_ne _ _ _ (hPL "mobile" (by decide)),
      mem_classToggle_of_ne _ _ _ _ (by decide : ("mobile" : String) ≠ "orientation-landscape"),
      mem_classToggle_of_ne _ _ _ _ (by decide : ("mobile" : String) ≠ "orientation-portrait"),
      mem_classToggle_of_ne _ _ _ _ (by decide : ("mobile" : String) ≠ "desktop"),
      mem_classToggle_of_ne _ _ _ _ (by decide : ("mobile" : String) ≠ "tablet"),
      mem_classToggle_self]
    rfl
  case _ =>
    show ("tablet" ∈ initHtml html0 env) ↔ _
    simp only [initHtml]
    rw [mem_classToggle_of_ne _ _ _ _ (by decide : ("tablet" : String) ≠ "prefers-light"),
      mem_classToggle_of_ne _ _ _ _ (by decide : ("tablet" : String) ≠ "prefers-dark"),
      mem_classToggle_of_ne _ _ _ _ (by decide : ("tablet" : String) ≠ "touch-disabled"),
      mem_classToggle_of_ne _ _ _ _ (by decide : ("tablet" : String) ≠ "touch-enabled"),
      mem_classAdd_of_ne _ _ _ (hOS "tablet" (by decide)),
      mem_classAdd_of_ne _ _ _ (hBR "tablet" (by decide)),
      mem_classAdd_of_ne _ _ _ (hPL "tablet" (by decide)),
      mem_classToggle_of_ne _ _ _ _ (by decide : ("tablet" : String) ≠ "orientation-landscape"),
      mem_classToggle_of_ne _ _ _ _ (by decide : ("tablet" : String) ≠ "orientation-portrait"),
      mem_classToggle_of_ne _ _ _ _ (by decide : ("tablet" : String) ≠ "desktop"),
      mem_classToggle_self]
    rfl
  case _ =>
    show ("desktop" ∈ initHtml html0 env) ↔ _
    simp only [initHtml]
    rw [mem_classToggle_of_ne _ _ _ _ (by decide : ("desktop" : String) ≠ "prefers-light"),
      mem_classToggle_of_ne _ _ _ _ (by decide : ("desktop" : String) ≠ "prefers-dark"),
      mem_classToggle_of_ne _ _ _ _ (by decide : ("desktop" : String) ≠ "touch-disabled"),
      mem_classToggle_of_ne _ _ _ _ (by decide : ("desktop" : String) ≠ "touch-enabled"),
      mem_classAdd_of_ne _ _ _ (hOS "desktop" (by decide)),
      mem_classAdd_of_ne _ _ _ (hBR "desktop" (by decide)),
      mem_classAdd_of_ne _ _ _ (hPL "desktop" (by decide)),
      mem_classToggle_of_ne _ _ _ _ (by decide : ("desktop" : String) ≠ "orientation-landscape"),
      mem_classToggle_of_ne _ _ _ _ (by decide : ("desktop" : String) ≠ "orientation-portrait"),
      mem_classToggle_self]
    rfl
  case _ =>
    show ("orientation-portrait" ∈ initHtml html0 env) ↔ _
    simp only [initHtml]
    rw [mem_classToggle_of_ne _ _ _ _ (by decide : ("orientation-portrait" : String) ≠ "prefers-light"),
      mem_classToggle_of_ne _ _ _ _ (by decide : ("orientation-portrait" : String) ≠ "prefers-dark"),
      mem_classToggle_of_ne _ _ _ _ (by decide : ("orientation-portrait" : String) ≠ "touch-disabled"),
      mem_classToggle_of_ne _ _ _ _ (by decide : ("orientation-portrait" : String) ≠ "touch-enabled"),
      mem_classAdd_of_ne _ _ _ (hOS "orientation-portrait" (by decide)),
      mem_classAdd_of_ne _ _ _ (hBR "orientation-portrait" (by decide)),
      mem_classAdd_of_ne _ _ _ (hPL "orientation-portrait" (by decide)),
      mem_classToggle_of_ne _ _ _ _ (by decide : ("orientation-portrait" : String) ≠ "orientation-landscape"),
      mem_classToggle_self]
    simp [matchesQuery]
    rfl
  case _ =>
    show ("orientation-landscape" ∈ initHtml html0 env) ↔ _
    simp only [initHtml]
    rw [mem_classToggle_of_ne _ _ _ _ (by decide : ("orientation-landscape" : String) ≠ "prefers-light"),
      mem_classToggle_of_ne _ _ _ _ (by decide : ("orientation-landscape" : String) ≠ "prefers-dark"),
      mem_classToggle_of_ne _ _ _ _ (by decide : ("orientation-landscape" : String) ≠ "touch-disabled"),
      mem_classToggle_of_ne _ _ _ _ (by decide : ("orientation-landscape" : String) ≠ "touch-enabled"),
      mem_classAdd_of_ne _ _ _ (hOS "orientation-landscape" (by decide)),
      mem_classAdd_of_ne _ _ _ (hBR "orientation-landscape" (by decide)),
      mem_classAdd_of_ne _ _ _ (hPL "orientation-landscape" (by decide)),
      mem_classToggle_self]
    simp [matchesQuery]
    rfl
  case _ =>
    show ("prefers-dark" ∈ initHtml html0 env) ↔ _
    simp only [initHtml]
    rw [mem_classToggle_of_ne _ _ _ _ (by decide : ("prefers-dark" : String) ≠ "prefers-light"),
      mem_classToggle_self]
    rfl
  case _ =>
    show ("prefers-light" ∈ initHtml html0 env) ↔ _
    simp only [initHtml]
    rw [mem_classToggle_self]
    simp
    rfl

/-- Membership through a change-gated orientation pair, for a class
other than the two toggled ones. -/
theorem mem_gatePair_of_ne (P : Prop) [Decidable P] (l : List String)
    (c1 c2 : String) (b1 b2 : Bool) (d : String) (h1 : d ≠ c1) (h2 : d ≠ c2) :
    (d ∈ if P then l else classToggle (classToggle l c1 b1) c2 b2) ↔ d ∈ l := by
  split
  · exact Iff.rfl
  · rw [mem_classToggle_of_ne _ _ _ _ h2, mem_classToggle_of_ne _ _ _ _ h1]

/-- Every change notification preserves the reactive-class invariant. -/
theorem inv_step (s : SysState) (e : Event) (h : Inv s) : Inv (step s e) := by
  obtain ⟨hBp, hM, hT, hD, hP, hBpMem, hMMem, hTMem, hDMem, hPMem, hLMem, hPdMem, hPlMem⟩ := h
  cases e with
  | resize w =>
    simp only [step]
    refine ⟨rfl, rfl, rfl, rfl, hP, ?_, ?_, ?_, ?_, ?_, ?_, ?_, ?_⟩
    case _ =>
      intro bp
      rw [mem_gateToggle_of_ne _ _ _ _ _ (Ne.symm (bpClass_ne_simple bp "desktop" (by decide))),
        mem_gateToggle_of_ne _ _ _ _ _ (Ne.symm (bpClass_ne_simple bp "tablet" (by decide))),
        mem_gateToggle_of_ne _ _ _ _ _ (Ne.symm (bpClass_ne_simple bp "mobile" (by decide)))]
      by_cases hg : currentBreakpoint true { s.env with width := w } = s.lastBp
      · rw [if_pos hg, hBpMem bp, hg]
      · rw [if_neg hg]
        by_cases hb : bp = currentBreakpoint true { s.env with width := w }
        · rw [hb]
          simp [mem_classAdd_self]
        · have hne : ("bp-" ++ bpText bp) ≠
              "bp-" ++ bpText (currentBreakpoint true { s.env with width := w }) :=
            fun he => hb ((bpClass_inj _ _).1 he)
          rw [mem_classAdd_of_ne _ _ _ hne, mem_classRemoveAll]
          simp [bpClass_mem bp, hb]
    case _ =>
      rw [mem_gateToggle_of_ne _ _ _ _ _ (by decide : ("mobile" : String) ≠ "desktop"),
        mem_gateToggle_of_ne _ _ _ _ _ (by decide : ("mobile" : String) ≠ "tablet")]
      by_cases hg : matchesQuery mobileQuery { s.env with width := w } = s.lastIsMobile
      · rw [if_pos hg, mem_bpStage _ _ _ _ (by decide : ("mobile" : String) ∉ bpClassNames),
          hMMem, hg, hM]
      · rw [if_neg hg, mem_classToggle_self]
    case _ =>
      rw [mem_gateToggle_of_ne _ _ _ _ _ (by decide : ("tablet" : String) ≠ "desktop")]
      by_cases hg : matchesQuery tabletQuery { s.env with width := w } = s.lastIsTablet
      · rw [if_pos hg,
          mem_gateToggle_of_ne _ _ _ _ _ (by decide : ("tablet" : String) ≠ "mobile"),
          mem_bpStage _ _ _ _ (by decide : ("tablet" : String) ∉ bpClassNames),
          hTMem, hg, hT]
      · rw [if_neg hg, mem_classToggle_self]
    case _ =>
      by_cases hg : matchesQuery desktopQuery { s.env with width := w } = s.lastIsDesktop
      · rw [if_pos hg,
          mem_gateToggle_of_ne _ _ _ _ _ (by decide : ("desktop" : String) ≠ "tablet"),
          mem_gateToggle_of_ne _ _ _ _ _ (by decide : ("desktop" : String) ≠ "mobile"),
          mem_bpStage _ _ _ _ (by decide : ("desktop" : String) ∉ bpClassNames),
          hDMem, hg, hD]
      · rw [if_neg hg, mem_classToggle_self]
    case _ =>
      rw [mem_gateToggle_of_ne _ _ _ _ _ (by decide : ("orientation-portrait" : String) ≠ "desktop"),
        mem_gateToggle_of_ne _ _ _ _ _ (by decide : ("orientation-portrait" : String) ≠ "tablet"),
        mem_gateToggle_of_ne _ _ _ _ _ (by decide : ("orientation-portrait" : String) ≠ "mobile"),
        mem_bpStage _ _ _ _ (by decide : ("orientation-portrait" : String) ∉ bpClassNames),
        hPMem]
    case _ =>
      rw [mem_gateToggle_of_ne _ _ _ _ _ (by decide : ("orientation-landscape" : String) ≠ "desktop"),
        mem_gateToggle_of_ne _ _ _ _ _ (by decide : ("orientation-landscape" : String) ≠ "tablet"),
        mem_gateToggle_of_ne _ _ _ _ _ (by decide : ("orientation-landscape" : String) ≠ "mobile"),
        mem_bpStage _ _ _ _ (by decide : ("orientation-landscape" : String) ∉ bpClassNames),
        hLMem]
    case _ =>
      rw [mem_gateToggle_of_ne _ _ _ _ _ (by decide : ("prefers-dark" : String) ≠ "desktop"),
        mem_gateToggle_of_ne _ _ _ _ _ (by decide : ("prefers-dark" : String) ≠ "tablet"),
        mem_gateToggle_of_ne _ _ _ _ _ (by decide : ("prefers-dark" : String) ≠ "mobile"),
        mem_bpStage _ _ _ _ (by decide : ("prefers-dark" : String) ∉ bpClassNames),
        hPdMem]
    case _ =>
      rw [mem_gateToggle_of_ne _ _ _ _ _ (by decide : ("prefers-light" : String) ≠ "desktop"),
        mem_gateToggle_of_ne _ _ _ _ _ (by decide : ("prefers-light" : String) ≠ "tablet"),
        mem_gateToggle_of_ne _ _ _ _ _ (by decide : ("prefers-light" : String) ≠ "mobile"),
        mem_bpStage _ _ _ _ (by decide : ("prefers-light" : String) ∉ bpClassNames),
        hPlMem]
  | orientationChange p =>
    simp only [step]
    refine ⟨hBp, hM, hT, hD, rfl, ?_, ?_, ?_, ?_, ?_, ?_, ?_, ?_⟩
    case _ =>
      intro bp
      rw [mem_gatePair_of_ne _ _ _ _ _ _ _
        (Ne.symm (bpClass_ne_simple bp "orientation-portrait" (by decide)))
        (Ne.symm (bpClass_ne_simple bp "orientation-landscape" (by decide)))]
      exact hBpMem bp
    case _ =>
      rw [mem_gatePair_of_ne _ _ _ _ _ _ _
        (by decide : ("mobile" : String) ≠ "orientation-portrait")
        (by decide : ("mobile" : String) ≠ "orientation-landscape"), hMMem]
      rfl
    case _ =>
      rw [mem_gatePair_of_ne _ _ _ _ _ _ _
        (by decide : ("tablet" : String) ≠ "orientation-portrait")
        (by decide : ("tablet" : String) ≠ "orientation-landscape"), hTMem]
      rfl
    case _ =>
      rw [mem_gatePair_of_ne _ _ _ _ _ _ _
        (by decide : ("desktop" : String) ≠ "orientation-portrait")
        (by decide : ("desktop" : String) ≠ "orientation-landscape"), hDMem]
      rfl
    case _ =>
      by_cases hg : p = s.lastIsPortrait
      · rw [if_pos hg, hPMem, hg.trans hP]
      · rw [if_neg hg,
          mem_classToggle_of_ne _ _ _ _
            (by decide : ("orientation-portrait" : String) ≠ "orientation-landscape"),
          mem_classToggle_self]
    case _ =>
      by_cases hg : p = s.lastIsPortrait
      · rw [if_pos hg, hLMem, hg.trans hP]
      · rw [if_neg hg, mem_classToggle_self]
        simp
    case _ =>
      rw [mem_gatePair_of_ne _ _ _ _ _ _ _
        (by decide : ("prefers-dark" : String) ≠ "orientation-portrait")
        (by decide : ("prefers-dark" : String) ≠ "orientation-landscape"), hPdMem]
    case _ =>
      rw [mem_gatePair_of_ne _ _ _ _ _ _ _
        (by decide : ("prefers-light" : String) ≠ "orientation-portrait")
        (by decide : ("prefers-light" : String) ≠ "orientation-landscape"), hPlMem]
  | colorSchemeChange d =>
    simp only [step]
    refine ⟨hBp, hM, hT, hD, hP, ?_, ?_, ?_, ?_, ?_, ?_, ?_, ?_⟩
    case _ =>
      intro bp
      rw [mem_classToggle_of_ne _ _ _ _ (Ne.symm (bpClass_ne_simple bp "prefers-light" (by decide))),
        mem_classToggle_of_ne _ _ _ _ (Ne.symm (bpClass_ne_simple bp "prefers-dark" (by decide)))]
      exact hBpMem bp
    case _ =>
      rw [mem_classToggle_of_ne _ _ _ _ (by decide : ("mobile" : String) ≠ "prefers-light"),
        mem_classToggle_of_ne _ _ _ _ (by decide : ("mobile" : String) ≠ "prefers-dark"), hMMem]
      rfl
    case _ =>
      rw [mem_classToggle_of_ne _ _ _ _ (by decide : ("tablet" : String) ≠ "prefers-light"),
        mem_classToggle_of_ne _ _ _ _ (by decide : ("tablet" : String) ≠ "prefers-dark"), hTMem]
      rfl
    case _ =>
      rw [mem_classToggle_of_ne _ _ _ _ (by decide : ("desktop" : String) ≠ "prefers-light"),
        mem_classToggle_of_ne _ _ _ _ (by decide : ("desktop" : String) ≠ "prefers-dark"), hDMem]
      rfl
    case _ =>
      rw [mem_classToggle_of_ne _ _ _ _ (by decide : ("orientation-portrait" : String) ≠ "prefers-light"),
        mem_classToggle_of_ne _ _ _ _ (by decide : ("orientation-portrait" : String) ≠ "prefers-dark"),
        hPMem]
    case _ =>
      rw [mem_classToggle_of_ne _ _ _ _ (by decide : ("orientation-landscape" : String) ≠ "prefers-light"),
        mem_classToggle_of_ne _ _ _ _ (by decide : ("orientation-landscape" : String) ≠ "prefers-dark"),
        hLMem]
    case _ =>
      rw [mem_classToggle_of_ne _ _ _ _ (by decide : ("prefers-dark" : String) ≠ "prefers-light"),
        mem_classToggle_self]
    case _ =>
      rw [mem_classToggle_self]
      simp

/-- C1: for every viewport width w, the currentBreakpoint accessor
returns 2xl when w is at least 1536, xl on [1280, 1536), lg on
[1024, 1280), md on [768, 1024), sm on [640, 768) and xs below 640;
the definition itself is the largest-to-smallest first-match cascade
with xs when no threshold matches. -/
theorem C1_currentBreakpoint_bands (env : Env) :
    (1536 ≤ env.width → currentBreakpoint true env = .xl2) ∧
    (1280 ≤ env.width ∧ env.width < 1536 → currentBreakpoint true env = .xl) ∧
    (1024 ≤ env.width ∧ env.width < 1280 → currentBreakpoint true env = .lg) ∧
    (768 ≤ env.width ∧ env.width < 1024 → currentBreakpoint true env = .md) ∧
    (640 ≤ env.width ∧ env.width < 768 → currentBreakpoint true env = .sm) ∧
    (env.width < 640 → currentBreakpoint true env = .xs) := by
  refine ⟨?_, ?_, ?_, ?_, ?_, ?_⟩ <;> intro h <;>
    simp only [currentBreakpoint, checkMatch, matchesQuery, TAILWIND_BREAKPOINTS,
      decide_eq_true_eq, if_true] <;>
    split_ifs <;> first | rfl | omega

/-- Witness for C1 at the concrete widths 1600 and 700. -/
theorem C1_witness :
    currentBreakpoint true (envAt 1600) = .xl2 ∧
      currentBreakpoint true (envAt 700) = .sm :=
  ⟨(C1_currentBreakpoint_bands (envAt 1600)).1 (by decide),
   (C1_currentBreakpoint_bands (envAt 700)).2.2.2.2.1 (by decide)⟩

/-- C2: for every viewport width, the three device observables and the
three snapshot device fields follow the documented bands (mobile below
768, tablet on [768, 1024), desktop from 1024 up; in particular at 768
mobile is false and tablet is true), and exactly one of the three
device observables is true. -/
theorem C2_device_partition (env : Env) :
    (matchesQuery mobileQuery env = true ↔ env.width < 768) ∧
    (matchesQuery tabletQuery env = true ↔ 768 ≤ env.width ∧ env.width < 1024) ∧
    (matchesQuery desktopQuery env = true ↔ 1024 ≤ env.width) ∧
    ((computeSnapshot true env).isMobile = true ↔ env.width < 768) ∧
    ((computeSnapshot true env).isTablet = true ↔ 768 ≤ env.width ∧ env.width < 1024) ∧
    ((computeSnapshot true env).isDesktop = true ↔ 1024 ≤ env.width) ∧
    ((matchesQuery mobileQuery env = true ∧ ¬matchesQuery tabletQuery env = true ∧
        ¬matchesQuery desktopQuery env = true) ∨
      (¬matchesQuery mobileQuery env = true ∧ matchesQuery tabletQuery env = true ∧
        ¬matchesQuery desktopQuery env = true) ∨
      (¬matchesQuery mobileQuery env = true ∧ ¬matchesQuery tabletQuery env = true ∧
        matchesQuery desktopQuery env = true)) := by
  simp only [matchesQuery, mobileQuery, tabletQuery, desktopQuery, computeSnapshot,
    checkMatch, TAILWIND_BREAKPOINTS, Bool.and_eq_true, Bool.not_eq_true',
    decide_eq_true_eq, decide_eq_false_iff_not, if_true]
  refine ⟨?_, ?_, trivial, ?_, ?_, trivial, ?_⟩ <;> omega

/-- C5: in every snapshot, breakpoint and the derived device booleans
agree: breakpoint in lg, xl, 2xl exactly when isDesktop; breakpoint md
exactly when isTablet; breakpoint in xs, sm exactly when isMobile. -/
theorem C5_breakpoint_agrees_with_device_booleans (isBrowser : Bool) (env : Env) :
    (((computeSnapshot isBrowser env).breakpoint = .lg ∨
      (computeSnapshot isBrowser env).breakpoint = .xl ∨
      (computeSnapshot isBrowser env).breakpoint = .xl2) ↔
        (computeSnapshot isBrowser env).isDesktop = true) ∧
    ((computeSnapshot isBrowser env).breakpoint = .md ↔
      (computeSnapshot isBrowser env).isTablet = true) ∧
    (((computeSnapshot isBrowser env).breakpoint = .xs ∨
      (computeSnapshot isBrowser env).breakpoint = .sm) ↔
        (computeSnapshot isBrowser env).isMobile = true) := by
  cases isBrowser with
  | false => simp [computeSnapshot, currentBreakpoint, checkMatch]
  | true =>
    simp only [computeSnapshot, currentBreakpoint, checkMatch, matchesQuery,
      TAILWIND_BREAKPOINTS, Bool.and_eq_true, Bool.not_eq_true',
      decide_eq_true_eq, decide_eq_false_iff_not, if_true]
    split_ifs <;> simp <;> omega

/-- C10: the one-time detectPlatform derivation and the platform field
of the snapshot agree on every environment. -/
theorem C10_platform_derivations_agree (isBrowser : Bool) (env : Env) :
    detectPlatform isBrowser env = (computeSnapshot isBrowser env).platform := by
  cases isBrowser with
  | false => rfl
  | true =>
    simp only [detectPlatform, computeSnapshot, checkMatch, matchesQuery,
      TAILWIND_BREAKPOINTS, Bool.and_eq_true, Bool.not_eq_true',
      decide_eq_true_eq, decide_eq_false_iff_not, if_true]
    split_ifs <;> first | rfl | omega

/-- C6: for every identifier string containing both the edg/ and the
chrome pattern (case-insensitively) the browser resolves to edge; in
general the patterns are tested in the fixed order edge, chrome,
firefox, safari, with other when nothing matches and other outside a
browser. -/
theorem C6_browser_precedence (ua : String) :
    (hasSub (lowerStr ua) "edg/" = true → hasSub (lowerStr ua) "chrome" = true →
      detectBrowser true ua = .edge) ∧
    (hasSub (lowerStr ua) "edg/" = true → detectBrowser true ua = .edge) ∧
    (hasSub (lowerStr ua) "edg/" = false → hasSub (lowerStr ua) "chrome" = true →
      detectBrowser true ua = .chrome) ∧
    (hasSub (lowerStr ua) "edg/" = false → hasSub (lowerStr ua) "chrome" = false →
      hasSub (lowerStr ua) "firefox" = true → detectBrowser true ua = .firefox) ∧
    (hasSub (lowerStr ua) "edg/" = false → hasSub (lowerStr ua) "chrome" = false →
      hasSub (lowerStr ua) "firefox" = false → hasSub (lowerStr ua) "safari" = true →
      detectBrowser true ua = .safari) ∧
    (hasSub (lowerStr ua) "edg/" = false → hasSub (lowerStr ua) "chrome" = false →
      hasSub (lowerStr ua) "firefox" = false → hasSub (lowerStr ua) "safari" = false →
      detectBrowser true ua = .other) ∧
    detectBrowser false ua = .other := by
  refine ⟨?_, ?_, ?_, ?_, ?_, ?_, rfl⟩ <;> intro h1 <;>
    first
      | (intro h2 h3 h4; simp [detectBrowser, h1, h2, h3, h4])
      | (intro h2 h3; simp [detectBrowser, h1, h2, h3])
      | (intro h2; simp [detectBrowser, h1, h2])
      | simp [detectBrowser, h1]

/-- Witness for C6 on an identifier string containing both patterns. -/
theorem C6_witness : detectBrowser true "Edg/ Chrome" = .edge :=
  (C6_browser_precedence "Edg/ Chrome").1 (by decide) (by decide)

/-- Counterexample to C7 as stated: a real iPhone identifier string
contains the mac pattern (like Mac OS X), which is tested before the
iphone pattern, so the OS resolves to macos rather than ios. -/
theorem C7_counterexample :
    hasSub (lowerStr "Mozilla/5.0 (iPhone; CPU iPhone OS 16_0 like Mac OS X)")
        "iphone" = true ∧
      detectOS true "Mozilla/5.0 (iPhone; CPU iPhone OS 16_0 like Mac OS X)" = .macos ∧
      detectOS true "Mozilla/5.0 (iPhone; CPU iPhone OS 16_0 like Mac OS X)" ≠ .ios := by
  decide

/-- C7 amended: an identifier string containing the iphone pattern
resolves to ios provided none of the earlier patterns win, mac and
linux fire. -/
theorem C7_iphone_gives_ios (ua : String)
    (hwin : hasSub (lowerStr ua) "win" = false)
    (hmac : hasSub (lowerStr ua) "mac" = false)
    (hlinux : hasSub (lowerStr ua) "linux" = false)
    (hiphone : hasSub (lowerStr ua) "iphone" = true) :
    detectOS true ua = .ios := by
  simp [detectOS, hwin, hmac, hlinux, hiphone]

/-- Witness for the amended C7 on a concrete identifier string. -/
theorem C7_witness : detectOS true "iPhone 15" = .ios :=
  C7_iphone_gives_ios "iPhone 15" (by decide) (by decide) (by decide) (by decide)

/-- C9: the OS cascade tests the substring win, not the word windows,
and tests it first: every identifier string containing win anywhere
resolves to windows, whatever else it contains. -/
theorem C9_win_substring_wins (ua : String)
    (hwin : hasSub (lowerStr ua) "win" = true) :
    detectOS true ua = .windows := by
  simp [detectOS, hwin]

/-- Witness for C9: the win pattern occurs inside the word Darwin, and
it beats the mac pattern also present in the string. -/
theorem C9_witness :
    hasSub (lowerStr "Darwin Macintosh") "win" = true ∧
      hasSub (lowerStr "Darwin Macintosh") "mac" = true ∧
      detectOS true "Darwin Macintosh" = .windows :=
  ⟨by decide, by decide, C9_win_substring_wins "Darwin Macintosh" (by decide)⟩

/-- Counterexample to C4 as stated: outside a browser a snapshot still
exists (the media queries all report no match), so the platform
accessor reads the platform field of that snapshot, which is mobile,
not the documented desktop default. -/
theorem C4_counterexample :
    platformAccessor (stateSignal false (envAt 500)) = .mobile ∧
      platformAccessor (stateSignal false (envAt 500)) ≠ .desktop ∧
      (computeSnapshot false (envAt 500)).platform ≠ .desktop := by
  decide

/-- C4 amended: outside a browser no accessor fails and each returns
its safe value: the orientation, touch and color-scheme booleans are
false, browser and os are other, but the platform field and accessor
are mobile, because a snapshot always exists and its device booleans
all derive from unmatched queries (isMobile true); the desktop
fallback applies only to the unreachable snapshot-absent case. -/
theorem C4_noninteractive_defaults (env : Env) :
    computeSnapshot false env =
      ⟨.xs, true, false, false, false, false, false, .mobile, .other, .other, false⟩ ∧
    platformAccessor (stateSignal false env) = .mobile ∧
    browserAccessor (stateSignal false env) = .other ∧
    osAccessor (stateSignal false env) = .other ∧
    platformAccessor none = .desktop ∧
    browserAccessor none = .other ∧
    osAccessor none = .other :=
  ⟨rfl, rfl, rfl, rfl, rfl, rfl, rfl⟩

theorem staticClass_ne_names : ∀ p : DevicePlatform, ∀ b : Browser, ∀ o : OpSystem,
    ∀ c ∈ (["touch-enabled", "touch-disabled", "prefers-dark", "prefers-light"] :
      List String),
    ("platform-" ++ platformText p) ≠ c ∧ ("browser-" ++ browserText b) ≠ c ∧
      ("os-" ++ osText o) ≠ c := by
  decide

/-- Counterexample to C3 as stated: starting from a freshly
constructed service under a light preference, a color-scheme change to
dark toggles the root classes but does not produce a new snapshot, so
the prefersDark field readable through the state accessor stays false
instead of becoming true. -/
theorem C3_counterexample :
    (mkInit [] (envAt 800)).env.prefersDark = false ∧
      "prefers-dark" ∈ (step (mkInit [] (envAt 800)) (.colorSchemeChange true)).html ∧
      (step (mkInit [] (envAt 800)) (.colorSchemeChange true)).snapshot.prefersDark
        = false := by
  decide

/-- C3 amended: when the color-scheme preference changes from light to
dark, the listener replaces prefers-light by prefers-dark on the root
element and affects no other class, but no new snapshot is produced:
the state accessor, and with it the prefersDark field, keeps its
previous value until the next breakpoint change re-emits. -/
theorem C3_color_toggle (s : SysState) (h : s.env.prefersDark = false) :
    "prefers-dark" ∈ (step s (.colorSchemeChange true)).html ∧
    "prefers-light" ∉ (step s (.colorSchemeChange true)).html ∧
    (∀ c : String, c ≠ "prefers-dark" → c ≠ "prefers-light" →
      (c ∈ (step s (.colorSchemeChange true)).html ↔ c ∈ s.html)) ∧
    (step s (.colorSchemeChange true)).snapshot = s.snapshot := by
  refine ⟨?_, ?_, ?_, rfl⟩
  · show "prefers-dark" ∈
      classToggle (classToggle s.html "prefers-dark" true) "prefers-light" (!true)
    rw [mem_classToggle_of_ne _ _ _ _
        (by decide : ("prefers-dark" : String) ≠ "prefers-light"),
      mem_classToggle_self]
  · show "prefers-light" ∉
      classToggle (classToggle s.html "prefers-dark" true) "prefers-light" (!true)
    rw [mem_classToggle_self]
    simp
  · intro c hc1 hc2
    show c ∈ classToggle (classToggle s.html "prefers-dark" true)
        "prefers-light" (!true) ↔ c ∈ s.html
    rw [mem_classToggle_of_ne _ _ _ _ hc2, mem_classToggle_of_ne _ _ _ _ hc1]

/-- Witness for the amended C3 on a concrete constructed state. -/
theorem C3_witness :
    "prefers-dark" ∈ (step (mkInit [] (envAt 900)) (.colorSchemeChange true)).html ∧
    "prefers-light" ∉ (step (mkInit [] (envAt 900)) (.colorSchemeChange true)).html ∧
    ("mobile" ∈ (step (mkInit [] (envAt 900)) (.colorSchemeChange true)).html ↔
      "mobile" ∈ (mkInit [] (envAt 900)).html) ∧
    (step (mkInit [] (envAt 900)) (.colorSchemeChange true)).snapshot =
      (mkInit [] (envAt 900)).snapshot :=
  have h := C3_color_toggle (mkInit [] (envAt 900)) (by decide)
  ⟨h.1, h.2.1, h.2.2.1 "mobile" (by decide) (by decide), h.2.2.2⟩

/-- C8: the platform, browser, os and touch classes are written once
at construction; no change notification ever alters a class outside
the reactive set, so they are never re-applied or changed even when a
resize crosses a band that would change detectPlatform; the
breakpoint, device, orientation and color-scheme classes, by contrast,
reflect the current environment at construction and after every
notification. -/
theorem C8_static_once_reactive_live :
    (∀ (html0 : List String) (env : Env),
      ("platform-" ++ platformText (detectPlatform true env)) ∈ (mkInit html0 env).html ∧
      ("browser-" ++ browserText (detectBrowser true env.userAgent)) ∈ (mkInit html0 env).html ∧
      ("os-" ++ osText (detectOS true env.userAgent)) ∈ (mkInit html0 env).html ∧
      ("touch-enabled" ∈ (mkInit html0 env).html ↔ detectTouch true env = true) ∧
      ("touch-disabled" ∈ (mkInit html0 env).html ↔ detectTouch true env = false)) ∧
    (∀ (s : SysState) (e : Event) (c : String), c ∉ reactiveClassNames →
      (c ∈ (step s e).html ↔ c ∈ s.html)) ∧
    (∀ (html0 : List String) (env : Env), Inv (mkInit html0 env)) ∧
    (∀ (s : SysState) (e : Event), Inv s → Inv (step s e)) := by
  refine ⟨?_, ?_, inv_mkInit, inv_step⟩
  · intro html0 env
    have hpair := staticClass_pairwise (detectPlatform true env)
      (detectBrowser true env.userAgent) (detectOS true env.userAgent)
    have hnm := staticClass_ne_names (detectPlatform true env)
      (detectBrowser true env.userAgent) (detectOS true env.userAgent)
    refine ⟨?_, ?_, ?_, ?_, ?_⟩
    · show _ ∈ initHtml html0 env
      simp only [initHtml]
      rw [mem_classToggle_of_ne _ _ _ _ ((hnm "prefers-light" (by decide)).1),
        mem_classToggle_of_ne _ _ _ _ ((hnm "prefers-dark" (by decide)).1),
        mem_classToggle_of_ne _ _ _ _ ((hnm "touch-disabled" (by decide)).1),
        mem_classToggle_of_ne _ _ _ _ ((hnm "touch-enabled" (by decide)).1),
        mem_classAdd_of_ne _ _ _ hpair.2.1,
        mem_classAdd_of_ne _ _ _ hpair.1]
      exact mem_classAdd_self _ _
    · show _ ∈ initHtml html0 env
      simp only [initHtml]
      rw [mem_classToggle_of_ne _ _ _ _ ((hnm "prefers-light" (by decide)).2.1),
        mem_classToggle_of_ne _ _ _ _ ((hnm "prefers-dark" (by decide)).2.1),
        mem_classToggle_of_ne _ _ _ _ ((hnm "touch-disabled" (by decide)).2.1),
        mem_classToggle_of_ne _ _ _ _ ((hnm "touch-enabled" (by decide)).2.1),
        mem_classAdd_of_ne _ _ _ hpair.2.2.1]
      exact mem_classAdd_self _ _
    · show _ ∈ initHtml html0 env
      simp only [initHtml]
      rw [mem_classToggle_of_ne _ _ _ _ ((hnm "prefers-light" (by decide)).2.2),
        mem_classToggle_of_ne _ _ _ _ ((hnm "prefers-dark" (by decide)).2.2),
        mem_classToggle_of_ne _ _ _ _ ((hnm "touch-disabled" (by decide)).2.2),
        mem_classToggle_of_ne _ _ _ _ ((hnm "touch-enabled" (by decide)).2.2)]
      exact mem_classAdd_self _ _
    · show ("touch-enabled" ∈ initHtml html0 env) ↔ _
      simp only [initHtml]
      rw [mem_classToggle_of_ne _ _ _ _
          (by decide : ("touch-enabled" : String) ≠ "prefers-light"),
        mem_classToggle_of_ne _ _ _ _
          (by decide : ("touch-enabled" : String) ≠ "prefers-dark"),
        mem_classToggle_of_ne _ _ _ _
          (by decide : ("touch-enabled" : String) ≠ "touch-disabled"),
        mem_classToggle_self]
    · show ("touch-disabled" ∈ initHtml html0 env) ↔ _
      simp only [initHtml]
      rw [mem_classToggle_of_ne _ _ _ _
          (by decide : ("touch-disabled" : String) ≠ "prefers-light"),
        mem_classToggle_of_ne _ _ _ _
          (by decide : ("touch-disabled" : String) ≠ "prefers-dark"),
        mem_classToggle_self]
      simp
  · intro s e c hc
    have hne : ∀ d ∈ reactiveClassNames, c ≠ d :=
      fun d hd he => hc (by rw [he]; exact hd)
    have hbp : c ∉ bpClassNames :=
      fun hm => hc (by unfold reactiveClassNames; exact List.mem_append_left _ hm)
    cases e with
    | resize w =>
      simp only [step]
      rw [mem_gateToggle_of_ne _ _ _ _ _ (hne "desktop" (by decide)),
        mem_gateToggle_of_ne _ _ _ _ _ (hne "tablet" (by decide)),
        mem_gateToggle_of_ne _ _ _ _ _ (hne "mobile" (by decide)),
        mem_bpStage _ _ _ _ hbp]
    | orientationChange p =>
      simp only [step]
      rw [mem_gatePair_of_ne _ _ _ _ _ _ _ (hne "orientation-portrait" (by decide))
        (hne "orientation-landscape" (by decide))]
    | colorSchemeChange d =>
      simp only [step]
      rw [mem_classToggle_of_ne _ _ _ _ (hne "prefers-light" (by decide)),
        mem_classToggle_of_ne _ _ _ _ (hne "prefers-dark" (by decide))]

/-- Witness for C8: at a concrete construction, the platform class is
present, a foreign class survives a resize notification unchanged, and
after the resize the mobile class still reflects the mobile query. -/
theorem C8_witness :
    ("platform-" ++ platformText (detectPlatform true (envAt 1200))) ∈
      (mkInit ["custom-widget"] (envAt 1200)).html ∧
    ("custom-widget" ∈ (step (mkInit ["custom-widget"] (envAt 1200)) (.resize 500)).html ↔
      "custom-widget" ∈ (mkInit ["custom-widget"] (envAt 1200)).html) ∧
    ("mobile" ∈ (step (mkInit ["custom-widget"] (envAt 1200)) (.resize 500)).html ↔
      matchesQuery mobileQuery
        (step (mkInit ["custom-widget"] (envAt 1200)) (.resize 500)).env = true) :=
  have h := C8_static_once_reactive_live
  ⟨(h.1 ["custom-widget"] (envAt 1200)).1,
   h.2.1 (mkInit ["custom-widget"] (envAt 1200)) (.resize 500) "custom-widget" (by decide),
   (h.2.2.2 (mkInit ["custom-widget"] (envAt 1200)) (.resize 500)
      (h.2.2.1 ["custom-widget"] (envAt 1200))).2.2.2.2.2.2.1⟩

end ResponsiveService
